import Mathlib

/-!
Shallow embedding of the forex signal bot (src/bot4.py): snapshot cache,
signal engine, threshold-alert engine and the dialog handlers that the
verified properties talk about.  Machine floats of the source are modelled
as rationals, wall-clock instants as integer seconds, and Python dicts as
association lists.  Python string helpers (split, strip, int) are modelled
by explicit character-list recursions so that every definition evaluates
inside the kernel.
-/

namespace ForexBot

/-- Whitespace test used by the model of the Python str.strip method. -/
def isSpaceChar (c : Char) : Bool :=
  c = ' ' || c = '\t' || c = '\n' || c = '\r'

/-- Drops leading whitespace characters. -/
def dropLead : List Char → List Char
  | [] => []
  | c :: cs => if isSpaceChar c then dropLead cs else c :: cs

/-- Model of the Python str.strip method on character lists. -/
def stripChars (l : List Char) : List Char :=
  (dropLead ((dropLead l).reverse)).reverse

/-- Model of the Python str.strip method. -/
def pyStrip (s : String) : String := String.mk (stripChars s.data)

/-- Splits a character list at commas, as the Python split method with
separator comma does: every comma produces a boundary, empty pieces kept. -/
def splitCommaAux (cur : List Char) : List Char → List (List Char)
  | [] => [cur.reverse]
  | c :: cs => if c = ',' then cur.reverse :: splitCommaAux [] cs
               else splitCommaAux (c :: cur) cs

/-- Model of the Python text.split with a comma separator. -/
def pySplitComma (s : String) : List String :=
  (splitCommaAux [] s.data).map String.mk

/-- Accumulates the value of a decimal digit string; none on a non-digit. -/
def digitsValA (acc : Nat) : List Char → Option Nat
  | [] => some acc
  | c :: cs => if c.isDigit then digitsValA (acc * 10 + (c.toNat - 48)) cs
               else none

/-- Model of the Python int constructor on a stripped character list:
an optional sign followed by at least one decimal digit. -/
def pyIntChars (l : List Char) : Option Int :=
  match stripChars l with
  | [] => none
  | '-' :: ds =>
    match ds with
    | [] => none
    | _ :: _ => (digitsValA 0 ds).map (fun n => -(n : Int))
  | '+' :: ds =>
    match ds with
    | [] => none
    | _ :: _ => (digitsValA 0 ds).map (fun n => (n : Int))
  | ds => (digitsValA 0 ds).map (fun n => (n : Int))

/-- Model of the Python int constructor on strings; none models ValueError. -/
def pyInt (s : String) : Option Int := pyIntChars s.data

/-- Character-list test that pat occurs as a contiguous prefix. -/
def charsPre : List Char → List Char → Bool
  | [], _ => true
  | _ :: _, [] => false
  | p :: ps, c :: cs => p == c && charsPre ps cs

/-- Character-list test that pat occurs as a contiguous substring. -/
def charsSub (pat : List Char) : List Char → Bool
  | [] => charsPre pat []
  | c :: cs => charsPre pat (c :: cs) || charsSub pat cs

/-- Model of the Python membership test pat in s on strings. -/
def strContains (s pat : String) : Bool := charsSub pat.data s.data

/-- Python dict assignment d[k] = v on an association list: overwrite the
value at the first occurrence of an existing key in place, otherwise append
the new binding at the end, matching dict insertion order. -/
def assocSet {α : Type} (k : String) (v : α) : List (String × α) →
    List (String × α)
  | [] => [(k, v)]
  | p :: rest => if p.1 = k then (k, v) :: rest else p :: assocSet k v rest

/-- FOREX_SYMBOLS table of src/bot4.py lines 38 to 47: display symbol to
Yahoo Finance symbol. -/
def FOREX_SYMBOLS : List (String × String) :=
  [("EUR/USD", "EURUSD=X"),
   ("GBP/USD", "GBPUSD=X"),
   ("USD/JPY", "USDJPY=X"),
   ("USD/CHF", "USDCHF=X"),
   ("AUD/USD", "AUDUSD=X"),
   ("NZD/USD", "NZDUSD=X"),
   ("USD/CAD", "USDCAD=X"),
   ("XAU/USD", "GC=F")]

/-- Conversation states of src/bot4.py lines 50 to 55. -/
inductive ConvState where
  | MENU
  | SETTINGS
  | ALERTS
  | SYMBOL_SELECTION
  | SET_ALERT_PRICE
  | SET_ALERT_TYPE
  | SET_TIMEZONE
  | SET_UPDATE_FREQ
  | SET_INDICATORS
  | SET_RISK
deriving DecidableEq

/-- Indicator bundle returned by get_technical_indicators on success
(src/bot4.py lines 247 to 266): ATR, RSI and the three MACD values. -/
structure Indicators where
  ATR : ℚ
  RSI : ℚ
  MACD : ℚ
  MACD_Signal : ℚ
  MACD_Hist : ℚ
deriving DecidableEq

/-- Snapshot dict built by get_forex_price (src/bot4.py lines 284 to 298).
The field inds is some when the indicator computation succeeded and none
when get_technical_indicators returned the empty dict, in which case the
five indicator keys are absent from the stored snapshot. -/
structure Snapshot where
  symbol : String
  current_price : ℚ
  open_price : ℚ
  weekly_high : ℚ
  weekly_low : ℚ
  daily_high : ℚ
  daily_low : ℚ
  h4_high : ℚ
  h4_low : ℚ
  h1_high : ℚ
  h1_low : ℚ
  timestamp : Int
  inds : Option Indicators
deriving DecidableEq

/-- CACHE_EXPIRY_MINUTES constant of src/bot4.py line 35. -/
def CACHE_EXPIRY_MINUTES : Int := 5

/-- PriceDataCache of src/bot4.py lines 77 to 98: per-symbol snapshot data
and last-updated instants (integer seconds). -/
structure PriceDataCache where
  data : List (String × Snapshot)
  last_updated : List (String × Int)
deriving DecidableEq

/-- PriceDataCache.is_valid of src/bot4.py lines 83 to 86: false when the
symbol is missing from either map, else true exactly when now minus the
stored instant is below the five-minute expiry. -/
def PriceDataCache.is_valid (c : PriceDataCache) (now : Int) (symbol : String) :
    Bool :=
  match c.data.lookup symbol, c.last_updated.lookup symbol with
  | some _, some t => decide (now - t < CACHE_EXPIRY_MINUTES * 60)
  | _, _ => false

/-- PriceDataCache.update of src/bot4.py lines 88 to 97: store the snapshot
and stamp the current instant (the file write is outside the model). -/
def PriceDataCache.update (c : PriceDataCache) (symbol : String) (d : Snapshot)
    (now : Int) : PriceDataCache :=
  { data := assocSet symbol d c.data,
    last_updated := assocSet symbol now c.last_updated }

/-- Last-bar and windowed highs and lows extracted from the fetched OHLC
series by get_forex_price (src/bot4.py lines 281 to 295); the pandas
aggregations themselves are external collaborators. -/
structure MarketBars where
  close_last : ℚ
  open_last : ℚ
  weekly_high : ℚ
  weekly_low : ℚ
  daily_high : ℚ
  daily_low : ℚ
  h4_high : ℚ
  h4_low : ℚ
  h1_high : ℚ
  h1_low : ℚ
deriving DecidableEq

/-- Environment of one get_forex_price call: fetched is none when Yahoo
returned empty data or raised (src/bot4.py lines 277 and 302), and
indicators is the result of get_technical_indicators, none standing for
the empty dict an indicator-computation failure yields (lines 264 to 266). -/
structure FetchEnv where
  fetched : Option MarketBars
  indicators : Option Indicators
  now : Int
deriving DecidableEq

/-- Builds the price_data dict of src/bot4.py lines 284 to 298 from the
fetched bars and the indicator result. -/
def mkSnapshot (symbol : String) (md : MarketBars) (now : Int)
    (inds : Option Indicators) : Snapshot :=
  { symbol := symbol,
    current_price := md.close_last,
    open_price := md.open_last,
    weekly_high := md.weekly_high,
    weekly_low := md.weekly_low,
    daily_high := md.daily_high,
    daily_low := md.daily_low,
    h4_high := md.h4_high,
    h4_low := md.h4_low,
    h1_high := md.h1_high,
    h1_low := md.h1_low,
    timestamp := now,
    inds := inds }

/-- get_forex_price of src/bot4.py lines 268 to 304: translate the symbol
through FOREX_SYMBOLS, serve a valid cache entry, otherwise fetch; on a
successful fetch build the snapshot and store it in the cache. -/
def get_forex_price (cache : PriceDataCache) (env : FetchEnv) (symbol : String) :
    Option Snapshot × PriceDataCache :=
  let yahoo_symbol := (FOREX_SYMBOLS.lookup symbol).getD symbol
  if cache.is_valid env.now yahoo_symbol then
    (cache.data.lookup yahoo_symbol, cache)
  else
    match env.fetched with
    | none => (none, cache)
    | some md =>
      let price_data := mkSnapshot symbol md env.now env.indicators
      (some price_data, cache.update yahoo_symbol price_data env.now)

/-- Property that a stored snapshot carries all five indicator values. -/
def fully_populated (s : Snapshot) : Bool := s.inds.isSome

/-- Per-user settings fields consumed by the signal engine. -/
structure Settings where
  indicators : List String
  risk_appetite : String
deriving DecidableEq

/-- Risk factor table of src/bot4.py line 325 with its default of 0.5. -/
def risk_factor (risk : String) : ℚ :=
  if risk = ("low") then 3/10
  else if risk = ("medium") then 1/2
  else if risk = ("high") then 7/10
  else 1/2

/-- RSI classification of src/bot4.py line 335: NEUTRAL on the closed band
from 30 to 70, OVERBOUGHT strictly above 70, OVERSOLD strictly below 30. -/
def rsi_signal_of (rsi : ℚ) : String :=
  if 30 ≤ rsi ∧ rsi ≤ 70 then ("NEUTRAL")
  else if 70 < rsi then ("OVERBOUGHT")
  else ("OVERSOLD")

/-- Signals dict built by calculate_trading_signals (src/bot4.py lines 306
to 349); optional fields are present exactly when the enabling indicator is
in the user settings. -/
structure Signals where
  support : ℚ
  resistance : ℚ
  ATR : Option ℚ
  safe_buy_zone : Option ℚ
  aggressive_buy_zone : Option ℚ
  sl_conservative : Option ℚ
  sl_moderate : Option ℚ
  tp_1 : Option ℚ
  RSI : Option ℚ
  rsi_signal : Option String
  MACD : Option ℚ
  MACD_Signal : Option ℚ
  MACD_Hist : Option ℚ
  macd_signal : Option String
  tp_2 : ℚ
deriving DecidableEq

/-- calculate_trading_signals of src/bot4.py lines 306 to 349.  Accessing a
missing indicator key raises in the source and the except clause returns
None; here that is the none of the Option monad, entered when an enabled
indicator block reads from a snapshot whose indicator dict is absent. -/
def calculate_trading_signals (price_data : Snapshot) (settings : Settings) :
    Option Signals := do
  let current_price := price_data.current_price
  let support := min price_data.h1_low price_data.h4_low
  let resistance := max price_data.h1_high price_data.h4_high
  let s0 : Signals :=
    { support := support, resistance := resistance,
      ATR := none, safe_buy_zone := none, aggressive_buy_zone := none,
      sl_conservative := none, sl_moderate := none, tp_1 := none,
      RSI := none, rsi_signal := none,
      MACD := none, MACD_Signal := none, MACD_Hist := none,
      macd_signal := none,
      tp_2 := resistance }
  let s1 ←
    if ("ATR") ∈ settings.indicators then do
      let inds ← price_data.inds
      let atr := inds.ATR
      let rf := risk_factor settings.risk_appetite
      pure { s0 with
             ATR := some atr,
             safe_buy_zone := some (support - atr * rf),
             aggressive_buy_zone := some (support - atr * (rf * (1/2))),
             sl_conservative := some (support - atr * (3/2)),
             sl_moderate := some (support - atr),
             tp_1 := some (current_price + atr * 2) }
    else pure s0
  let s2 ←
    if ("RSI") ∈ settings.indicators then do
      let inds ← price_data.inds
      pure { s1 with
             RSI := some inds.RSI,
             rsi_signal := some (rsi_signal_of inds.RSI) }
    else pure s1
  let s3 ←
    if ("MACD") ∈ settings.indicators then do
      let inds ← price_data.inds
      pure { s2 with
             MACD := some inds.MACD,
             MACD_Signal := some inds.MACD_Signal,
             MACD_Hist := some inds.MACD_Hist,
             macd_signal := some (if inds.MACD > inds.MACD_Signal
                                  then ("BULLISH") else ("BEARISH")) }
    else pure s2
  pure { s3 with tp_2 := s3.resistance }

/-- NEUTRAL recommendation text of src/bot4.py line 419. -/
def msg_neutral_wait : String := "⚪ <b>NEUTRAL</b> - Wait for better entry"

/-- STRONG BUY recommendation text of src/bot4.py line 423. -/
def msg_strong_buy : String := "✅ <b>STRONG BUY</b> - Oversold at safe zone"

/-- SELL recommendation text of src/bot4.py line 425. -/
def msg_sell : String := "🔴 <b>SELL</b> - Overbought at resistance"

/-- BUY recommendation text of src/bot4.py line 427. -/
def msg_buy : String := "🟡 <b>BUY</b> - Aggressive zone"

/-- BULLISH fallback text of src/bot4.py line 431. -/
def msg_bullish : String := "🟢 <b>BULLISH</b> - MACD crossover"

/-- BEARISH fallback text of src/bot4.py line 432. -/
def msg_bearish : String := "🔴 <b>BEARISH</b> - MACD crossover"

/-- Risk-note table of src/bot4.py line 435 with its empty default. -/
def risk_note (risk : String) : String :=
  if risk = ("low") then (" (Low Risk)")
  else if risk = ("medium") then ("")
  else if risk = ("high") then (" (High Risk)")
  else ("")

/-- Recommendation variable of generate_recommendation before the risk note
is appended (src/bot4.py lines 418 to 433): the RSI and ATR rules in order,
then the MACD fallback, which fires only when the text still says NEUTRAL. -/
def recommendation_core (price_data : Snapshot) (signals : Signals)
    (settings : Settings) : String :=
  let current_price := price_data.current_price
  let base :=
    if ("RSI") ∈ settings.indicators ∧ ("ATR") ∈ settings.indicators then
      if current_price ≤ signals.safe_buy_zone.getD 0 ∧
         signals.rsi_signal = some ("OVERSOLD") then
        msg_strong_buy
      else if signals.resistance ≤ current_price ∧
              signals.rsi_signal = some ("OVERBOUGHT") then
        msg_sell
      else if current_price ≤ signals.aggressive_buy_zone.getD 0 then
        msg_buy
      else msg_neutral_wait
    else msg_neutral_wait
  if ("MACD") ∈ settings.indicators ∧ strContains base ("NEUTRAL") = true then
    if signals.macd_signal = some ("BULLISH") then msg_bullish else msg_bearish
  else base

/-- generate_recommendation of src/bot4.py lines 415 to 439: the core
recommendation with the risk note appended. -/
def generate_recommendation (price_data : Snapshot) (signals : Signals)
    (settings : Settings) : String :=
  recommendation_core price_data signals settings ++
    risk_note settings.risk_appetite

/-- Alert record of src/bot4.py lines 153 to 159.  The active field is an
Option because check_alerts reads it with a default (line 446): none models
a record lacking the key. -/
structure Alert where
  symbol : String
  type : String
  price : ℚ
  created : Int
  active : Option Bool
deriving DecidableEq

/-- Alert store: chat-id string to the ordered list of that chats alerts. -/
abbrev AlertStore := List (String × List Alert)

/-- Price condition of src/bot4.py lines 446 and 449 to 450: the alert is
for this symbol and the observed price passed the threshold on the side the
alert type names. -/
def alertCond (current_price : ℚ) (symbol : String) (a : Alert) : Bool :=
  a.symbol == symbol &&
    ((a.type == ("above") && decide (a.price ≤ current_price)) ||
     (a.type == ("below") && decide (current_price ≤ a.price)))

/-- Firing test of src/bot4.py lines 446 to 450: the record is active (a
missing field defaults to true) and the price condition holds. -/
def fireAlert (current_price : ℚ) (symbol : String) (a : Alert) : Bool :=
  a.active.getD true && alertCond current_price symbol a

/-- Content of the alert message sent at src/bot4.py lines 451 to 455. -/
structure Notification where
  symbol : String
  alert_type : String
  alert_price : ℚ
  current_price : ℚ
deriving DecidableEq

/-- Builds the notification for one fired alert. -/
def mkNotif (symbol : String) (current_price : ℚ) (a : Alert) : Notification :=
  { symbol := symbol, alert_type := a.type, alert_price := a.price,
    current_price := current_price }

/-- Inner loop of check_alerts over one chats alert list (src/bot4.py lines
445 to 456): each firing alert produces one notification and its active
field is set to false in place; the list keeps its length and order. -/
def fireChat (current_price : ℚ) (symbol : String) :
    List Alert → List Alert × List Notification
  | [] => ([], [])
  | a :: rest =>
    let r := fireChat current_price symbol rest
    if fireAlert current_price symbol a then
      ({ a with active := some false } :: r.1,
       mkNotif symbol current_price a :: r.2)
    else (a :: r.1, r.2)

/-- check_alerts of src/bot4.py lines 441 to 459: run the firing pass for
every chat, tag each notification with the owning chat id, and count the
save_alerts calls, one at the end of every chat iteration (line 457). -/
def check_alerts (current_price : ℚ) (symbol : String) :
    AlertStore → AlertStore × List (String × Notification) × Nat
  | [] => ([], [], 0)
  | (cid, alerts) :: rest =>
    let fc := fireChat current_price symbol alerts
    let r := check_alerts current_price symbol rest
    ((cid, fc.1) :: r.1,
     fc.2.map (fun n => (cid, n)) ++ r.2.1,
     r.2.2 + 1)

/-- AlertManager.remove_alert of src/bot4.py lines 169 to 179: delete the
alert at the given position when the chat exists and the index is inside
the bounds, reporting success; otherwise report failure and change nothing.
The try wrapper of the source makes the operation total, which the model
reflects by being a total function. -/
def remove_alert (store : AlertStore) (chat_id : Int) (alert_index : Int) :
    AlertStore × Bool :=
  let cid := toString chat_id
  match store.lookup cid with
  | none => (store, false)
  | some alerts =>
    if 0 ≤ alert_index ∧ alert_index < alerts.length then
      (assocSet cid (alerts.eraseIdx alert_index.toNat) store, true)
    else (store, false)

/-- Back button label used by the dialog handlers. -/
def btn_back : String := "⬅️ Back"

/-- Result of one handle_symbol_selection step: the next conversation
state, the stored symbol subscription after the step, the symbol stashed
for an alert in flight, and whether the invalid-symbol error was shown. -/
structure SymbolSelResult where
  state : ConvState
  symbols : List String
  alert_symbol : Option String
  error : Bool
deriving DecidableEq

/-- Symbol parsing of src/bot4.py lines 697 to 698: split the input on
commas, strip each token, keep those that are keys of FOREX_SYMBOLS. -/
def valid_symbols_of (text : String) : List String :=
  let symbols := (pySplitComma text).map pyStrip
  symbols.filter (fun s => (FOREX_SYMBOLS.lookup s).isSome)

/-- handle_symbol_selection of src/bot4.py lines 686 to 714, taking the
incoming text, the alert-setup flag and the stored symbol subscription. -/
def handle_symbol_selection (text : String) (alert_setup : Bool)
    (symbols : List String) : SymbolSelResult :=
  if text = btn_back then
    { state := if alert_setup then ConvState.ALERTS else ConvState.SETTINGS,
      symbols := symbols, alert_symbol := none, error := false }
  else
    let valid_symbols := valid_symbols_of text
    if valid_symbols = [] then
      { state := ConvState.SYMBOL_SELECTION, symbols := symbols,
        alert_symbol := none, error := true }
    else if alert_setup then
      { state := ConvState.SET_ALERT_PRICE, symbols := symbols,
        alert_symbol := some (valid_symbols.headD ("")), error := false }
    else
      { state := ConvState.MENU, symbols := valid_symbols,
        alert_symbol := none, error := false }

/-- set_update_freq of src/bot4.py lines 768 to 789, taking the incoming
text and the stored frequency of the chat: an in-range integer is persisted
and the dialog returns to the menu; anything unparsable or out of range
re-prompts in the same state and keeps the stored value. -/
def set_update_freq (text : String) (stored_freq : Int) : ConvState × Int :=
  if text = btn_back then (ConvState.SETTINGS, stored_freq)
  else
    match pyInt text with
    | some freq =>
      if 15 ≤ freq ∧ freq ≤ 1440 then (ConvState.MENU, freq)
      else (ConvState.SET_UPDATE_FREQ, stored_freq)
    | none => (ConvState.SET_UPDATE_FREQ, stored_freq)

/-!
Helper lemmas shared by the verification below.
-/

/-- Looking up the assigned key after a dict assignment yields the new
value. -/
lemma assocSet_lookup {α : Type} (k : String) (v : α) (l : List (String × α)) :
    (assocSet k v l).lookup k = some v := by
  induction l with
  | nil => simp [assocSet, List.lookup]
  | cons p rest ih =>
    by_cases hk : p.1 = k
    · simp [assocSet, hk, List.lookup]
    · have hb : (k == p.1) = false := by
        simp [beq_iff_eq]
        exact fun h => hk h.symm
      simp [assocSet, hk, List.lookup, hb, ih]

/-- The firing pass rewrites the alert list elementwise: a firing alert is
replaced by the same record deactivated, any other alert is untouched. -/
lemma fireChat_fst (p : ℚ) (sym : String) (l : List Alert) :
    (fireChat p sym l).1 =
      l.map (fun a => if fireAlert p sym a
                      then { a with active := some false } else a) := by
  induction l with
  | nil => simp [fireChat]
  | cons a rest ih =>
    by_cases h : fireAlert p sym a <;> simp [fireChat, h, ih]

/-- The firing pass emits one notification per firing alert, in order. -/
lemma fireChat_snd (p : ℚ) (sym : String) (l : List Alert) :
    (fireChat p sym l).2 =
      (l.filter (fun a => fireAlert p sym a)).map (mkNotif sym p) := by
  induction l with
  | nil => simp [fireChat]
  | cons a rest ih =>
    by_cases h : fireAlert p sym a <;> simp [fireChat, h, ih]

/-- A deactivated record never passes the firing test again. -/
lemma fireAlert_inactive (p : ℚ) (sym : String) (a : Alert) :
    fireAlert p sym { a with active := some false } = false := by
  simp [fireAlert]

/-- Running the firing pass a second time on its own output fires nothing
and leaves the list unchanged. -/
lemma fireChat_second_pass (p : ℚ) (sym : String) (l : List Alert) :
    fireChat p sym (fireChat p sym l).1 = ((fireChat p sym l).1, []) := by
  induction l with
  | nil => simp [fireChat]
  | cons a rest ih =>
    by_cases h : fireAlert p sym a <;>
      simp [fireChat, h, fireAlert_inactive, ih]

/-!
Concrete values used by witnesses and counterexamples.
-/

/-- Example snapshot: oversold market sitting below the safe buy zone. -/
def pdEx : Snapshot :=
  { symbol := "EUR/USD", current_price := 8, open_price := 9,
    weekly_high := 25, weekly_low := 5, daily_high := 23, daily_low := 6,
    h4_high := 21, h4_low := 12, h1_high := 20, h1_low := 10,
    timestamp := 0,
    inds := some { ATR := 2, RSI := 20, MACD := 1, MACD_Signal := 0,
                   MACD_Hist := 1 } }

/-- Example settings with all three indicators enabled at medium risk. -/
def settingsEx : Settings :=
  { indicators := ["RSI", "ATR", "MACD"], risk_appetite := "medium" }

/-- Signals the engine computes for pdEx under settingsEx. -/
def sigEx : Signals :=
  { support := 10, resistance := 21,
    ATR := some 2, safe_buy_zone := some 9,
    aggressive_buy_zone := some (19/2),
    sl_conservative := some 7, sl_moderate := some 8, tp_1 := some 12,
    RSI := some 20, rsi_signal := some ("OVERSOLD"),
    MACD := some 1, MACD_Signal := some 0, MACD_Hist := some 1,
    macd_signal := some ("BULLISH"),
    tp_2 := 21 }

/-- The signal engine on pdEx and settingsEx produces exactly sigEx. -/
lemma calcEx : calculate_trading_signals pdEx settingsEx = some sigEx := by
  simp [calculate_trading_signals, pdEx, settingsEx, sigEx, risk_factor,
        rsi_signal_of]
  norm_num

/-- Empty cache. -/
def cache0 : PriceDataCache := { data := [], last_updated := [] }

/-- Example fetched market bars. -/
def md0 : MarketBars :=
  { close_last := 8, open_last := 9, weekly_high := 25, weekly_low := 5,
    daily_high := 23, daily_low := 6, h4_high := 21, h4_low := 12,
    h1_high := 20, h1_low := 10 }

/-- Environment where the fetch succeeded but the indicator computation
failed, so get_technical_indicators returned the empty dict. -/
def env_noInd : FetchEnv := { fetched := some md0, indicators := none, now := 0 }

/-- Cache holding one snapshot stamped at instant 100. -/
def cacheC5 : PriceDataCache :=
  { data := [("EURUSD=X", mkSnapshot ("EUR/USD") md0 0 none)],
    last_updated := [("EURUSD=X", 100)] }

/-- Active above-alert at threshold 1. -/
def alertA : Alert :=
  { symbol := "EUR/USD", type := "above", price := 1, created := 0,
    active := some true }

/-- Second active above-alert at threshold 1. -/
def alertB : Alert :=
  { symbol := "EUR/USD", type := "above", price := 1, created := 0,
    active := some true }

/-- Store with two chats, each holding one firing alert. -/
def store2 : AlertStore := [("1", [alertA]), ("2", [alertB])]

/-- Store with one chat holding two alerts. -/
def storeC8 : AlertStore := [("7", [alertA, alertB])]

/-- Alert record lacking the active field. -/
def noActiveAlert : Alert :=
  { symbol := "EUR/USD", type := "above", price := 1, created := 0,
    active := none }

/-!
Claim theorems.
-/

/-- C1: when both RSI and ATR are enabled and the snapshot price is at or
below the safe buy zone computed by the signal engine while the RSI
classification is OVERSOLD, generate_recommendation returns the STRONG BUY
text (with the risk note of the settings appended) whatever the MACD
classification is: the first RSI and ATR rule takes priority and the MACD
fallback, which only applies to a NEUTRAL recommendation, is skipped. -/
theorem strong_buy_priority (price_data : Snapshot) (settings : Settings)
    (signals : Signals)
    (hR : ("RSI") ∈ settings.indicators) (hA : ("ATR") ∈ settings.indicators)
    (hcalc : calculate_trading_signals price_data settings = some signals)
    (hp : price_data.current_price ≤ signals.safe_buy_zone.getD 0)
    (hrsi : signals.rsi_signal = some ("OVERSOLD")) :
    generate_recommendation price_data signals settings =
      msg_strong_buy ++ risk_note settings.risk_appetite := by
  have hno : strContains msg_strong_buy ("NEUTRAL") = false := by decide
  simp [generate_recommendation, recommendation_core, hR, hA, hp, hrsi, hno]

/-- Witness for C1 at a concrete oversold snapshot with a bullish MACD. -/
theorem strong_buy_priority_witness :
    generate_recommendation pdEx sigEx settingsEx =
      msg_strong_buy ++ risk_note ("medium") :=
  strong_buy_priority pdEx settingsEx sigEx (by decide) (by decide) calcEx
    (by decide) rfl

/-- C2 counterexample: with a successful fetch whose indicator computation
failed, get_forex_price still stores a snapshot, and the stored snapshot
lacks all five indicator values — a partially populated snapshot is
stored, contrary to the claim. -/
theorem partial_snapshot_stored :
    (get_forex_price cache0 env_noInd ("EUR/USD")).2.data.lookup ("EURUSD=X")
        = some (mkSnapshot ("EUR/USD") md0 0 none) ∧
    fully_populated (mkSnapshot ("EUR/USD") md0 0 none) = false := by
  refine ⟨?_, rfl⟩
  rfl

/-- C2 amended: a snapshot is stored exactly on a successful fetch at a
cache miss, always carrying the price fields; it carries the five
indicator values exactly when the indicator computation succeeded, so an
indicator failure stores a snapshot without indicator values, while a
fetch failure stores nothing. -/
theorem get_forex_price_storage (cache : PriceDataCache) (env : FetchEnv)
    (symbol : String)
    (hmiss : cache.is_valid env.now
        ((FOREX_SYMBOLS.lookup symbol).getD symbol) = false) :
    (env.fetched = none → get_forex_price cache env symbol = (none, cache)) ∧
    (∀ md, env.fetched = some md →
      (get_forex_price cache env symbol).1 =
          some (mkSnapshot symbol md env.now env.indicators) ∧
      (get_forex_price cache env symbol).2.data.lookup
          ((FOREX_SYMBOLS.lookup symbol).getD symbol) =
          some (mkSnapshot symbol md env.now env.indicators) ∧
      (get_forex_price cache env symbol).2.last_updated.lookup
          ((FOREX_SYMBOLS.lookup symbol).getD symbol) = some env.now ∧
      fully_populated (mkSnapshot symbol md env.now env.indicators) =
          env.indicators.isSome) := by
  constructor
  · intro hf
    simp [get_forex_price, hmiss, hf]
  · intro md hf
    refine ⟨?_, ?_, ?_, rfl⟩ <;>
      simp [get_forex_price, hmiss, hf, PriceDataCache.update, assocSet_lookup]

/-- Witness for C2 amended at the indicator-failure environment. -/
theorem get_forex_price_storage_witness :
    (get_forex_price cache0 env_noInd ("EUR/USD")).1 =
      some (mkSnapshot ("EUR/USD") md0 0 none) :=
  ((get_forex_price_storage cache0 env_noInd ("EUR/USD") (by decide)).2
    md0 rfl).1

/-- C3: in one firing pass every alert whose test passes is replaced in
place by the same record with active set to false and yields exactly one
notification, the list keeps its length and order, a second pass over the
result fires nothing and changes nothing, and the store-level pass keeps
the chat entry under its chat id, tags the notifications with that id and
leaves the record in storage. -/
theorem alert_fires_exactly_once (current_price : ℚ) (symbol : String)
    (alerts : List Alert) :
    ((fireChat current_price symbol alerts).1 =
       alerts.map (fun a => if fireAlert current_price symbol a
                            then { a with active := some false } else a)) ∧
    ((fireChat current_price symbol alerts).2 =
       (alerts.filter (fun a => fireAlert current_price symbol a)).map
         (mkNotif symbol current_price)) ∧
    ((fireChat current_price symbol alerts).1.length = alerts.length) ∧
    (fireChat current_price symbol (fireChat current_price symbol alerts).1 =
       ((fireChat current_price symbol alerts).1, [])) ∧
    (∀ cid, check_alerts current_price symbol [(cid, alerts)] =
       ([(cid, (fireChat current_price symbol alerts).1)],
        (fireChat current_price symbol alerts).2.map (fun n => (cid, n)),
        1)) := by
  refine ⟨fireChat_fst current_price symbol alerts,
          fireChat_snd current_price symbol alerts, ?_,
          fireChat_second_pass current_price symbol alerts, ?_⟩
  · rw [fireChat_fst]
    simp
  · intro cid
    simp [check_alerts]

/-- C4 counterexample: the lowercase input of the claim matches no key of
the case-sensitive symbol table, so the valid set is empty and the handler
re-prompts with an error instead of yielding EUR/USD and GBP/USD. -/
theorem lowercase_symbols_rejected :
    valid_symbols_of ("eur/usd, bogus, gbp/usd") = [] ∧
    valid_symbols_of ("eur/usd, bogus, gbp/usd") ≠ [("EUR/USD"), ("GBP/USD")] ∧
    (handle_symbol_selection ("eur/usd, bogus, gbp/usd") false
        [("EUR/USD")]).error = true := by
  decide

/-- C4 amended: tokens are matched case-sensitively against the symbol
table, so the uppercase input EUR/USD, bogus, GBP/USD yields exactly
EUR/USD and GBP/USD with the invalid token silently dropped; in general,
whenever at least one valid symbol remains, no error is shown and, outside
alert setup, the full valid list is persisted and the dialog returns to
the menu. -/
theorem symbol_selection_valid (text : String) (alert_setup : Bool)
    (symbols : List String)
    (hnb : text ≠ btn_back) (hv : valid_symbols_of text ≠ []) :
    (handle_symbol_selection text alert_setup symbols).error = false ∧
    (alert_setup = false →
      handle_symbol_selection text alert_setup symbols =
        { state := ConvState.MENU, symbols := valid_symbols_of text,
          alert_symbol := none, error := false }) ∧
    valid_symbols_of ("EUR/USD, bogus, GBP/USD") =
      [("EUR/USD"), ("GBP/USD")] := by
  refine ⟨?_, ?_, by decide⟩
  · by_cases hs : alert_setup <;>
      simp [handle_symbol_selection, hnb, hv, hs]
  · intro hs
    simp [handle_symbol_selection, hnb, hv, hs]

/-- Witness for C4 amended on the uppercase input outside alert setup. -/
theorem symbol_selection_valid_witness :
    handle_symbol_selection ("EUR/USD, bogus, GBP/USD") false [("EUR/USD")] =
      { state := ConvState.MENU, symbols := [("EUR/USD"), ("GBP/USD")],
        alert_symbol := none, error := false } :=
  (symbol_selection_valid ("EUR/USD, bogus, GBP/USD") false [("EUR/USD")]
    (by decide) (by decide)).2.1 rfl

/-- C5: cache validity is true exactly when both maps hold the symbol and
the age is strictly below the five-minute expiry — true at age zero, false
the instant the age reaches it — a symbol without an entry reports a miss,
and when validity is false the get_forex_price result is built from the
fresh fetch alone, never from the stored entry. -/
theorem is_valid_spec (c : PriceDataCache) (now : Int) (symbol : String) :
    (∀ t, c.last_updated.lookup symbol = some t →
       (c.data.lookup symbol).isSome = true →
       (c.is_valid now symbol = true ↔
         now - t < CACHE_EXPIRY_MINUTES * 60)) ∧
    (c.data.lookup symbol = none ∨ c.last_updated.lookup symbol = none →
       c.is_valid now symbol = false) ∧
    (∀ env : FetchEnv,
       c.is_valid env.now ((FOREX_SYMBOLS.lookup symbol).getD symbol) = false →
       (get_forex_price c env symbol).1 =
         env.fetched.map
           (fun md => mkSnapshot symbol md env.now env.indicators)) := by
  refine ⟨?_, ?_, ?_⟩
  · intro t ht hd
    cases hda : c.data.lookup symbol with
    | none => simp [hda] at hd
    | some d => simp [PriceDataCache.is_valid, hda, ht]
  · intro h
    unfold PriceDataCache.is_valid
    rcases h with h | h
    · simp [h]
    · cases c.data.lookup symbol <;> simp [h]
  · intro env hmiss
    cases hf : env.fetched <;>
      simp [get_forex_price, hmiss, hf]

/-- Witness for C5: a fresh entry aged zero seconds is valid. -/
theorem is_valid_spec_witness :
    cacheC5.is_valid 100 ("EURUSD=X") = true :=
  ((is_valid_spec cacheC5 100 ("EURUSD=X")).1 100 rfl rfl).mpr (by decide)

/-- C6: in the update-frequency state, an input other than the back button
that fails integer parsing or parses outside 15 to 1440 re-prompts in the
same state with the stored frequency unchanged, while an in-range integer
is persisted and the dialog moves to the menu. -/
theorem set_update_freq_spec (text : String) (stored : Int)
    (hnb : text ≠ btn_back) :
    (pyInt text = none →
       set_update_freq text stored = (ConvState.SET_UPDATE_FREQ, stored)) ∧
    (∀ f, pyInt text = some f → ¬(15 ≤ f ∧ f ≤ 1440) →
       set_update_freq text stored = (ConvState.SET_UPDATE_FREQ, stored)) ∧
    (∀ f, pyInt text = some f → 15 ≤ f → f ≤ 1440 →
       set_update_freq text stored = (ConvState.MENU, f)) := by
  refine ⟨?_, ?_, ?_⟩
  · intro h
    simp [set_update_freq, hnb, h]
  · intro f hf hrange
    simp [set_update_freq, hnb, hf, hrange]
  · intro f hf h15 h1440
    simp [set_update_freq, hnb, hf, h15, h1440]

/-- Witness for C6: the input 10 is below the minimum, so the state machine
re-prompts and the stored frequency 30 is kept. -/
theorem set_update_freq_spec_witness :
    set_update_freq ("10") 30 = (ConvState.SET_UPDATE_FREQ, 30) :=
  (set_update_freq_spec ("10") 30 (by decide)).2.1 10 (by decide) (by decide)

/-- C7 counterexample: a pass over a store with two chats, each holding one
firing alert, calls save_alerts twice — once per chat — so the store is not
persisted exactly once for the pass. -/
theorem save_per_chat_not_once :
    (check_alerts 2 ("EUR/USD") store2).2.2 = 2 ∧
    (check_alerts 2 ("EUR/USD") store2).2.1.length = 2 ∧
    (check_alerts 2 ("EUR/USD") store2).2.2 ≠ 1 := by
  decide

/-- C7 amended: one match-and-fire pass persists the alert store once per
chat entry held in the store — independent of how many alerts fire —
rather than once per fired alert or once for the whole pass. -/
theorem save_count_per_chat (current_price : ℚ) (symbol : String)
    (store : AlertStore) :
    (check_alerts current_price symbol store).2.2 = store.length := by
  induction store with
  | nil => rfl
  | cons e rest ih =>
    obtain ⟨cid, alerts⟩ := e
    simp [check_alerts, ih]

/-- C8: remove_alert reports failure and leaves the store unchanged for a
missing chat or an index outside the bounds of that list, and for a valid
index it reports success and the list of that chat loses exactly the alert
at that position. -/
theorem remove_alert_spec (store : AlertStore) (chat_id : Int)
    (alert_index : Int) :
    (store.lookup (toString chat_id) = none →
       remove_alert store chat_id alert_index = (store, false)) ∧
    (∀ alerts, store.lookup (toString chat_id) = some alerts →
       ¬(0 ≤ alert_index ∧ alert_index < alerts.length) →
       remove_alert store chat_id alert_index = (store, false)) ∧
    (∀ alerts, store.lookup (toString chat_id) = some alerts →
       0 ≤ alert_index → alert_index < alerts.length →
       (remove_alert store chat_id alert_index).2 = true ∧
       (remove_alert store chat_id alert_index).1.lookup (toString chat_id) =
         some (alerts.take alert_index.toNat ++
               alerts.drop (alert_index.toNat + 1))) := by
  refine ⟨?_, ?_, ?_⟩
  · intro h
    simp [remove_alert, h]
  · intro alerts h hrange
    simp [remove_alert, h, hrange]
  · intro alerts h h0 hlen
    have hr : 0 ≤ alert_index ∧ alert_index < alerts.length := ⟨h0, hlen⟩
    constructor
    · simp [remove_alert, h, hr]
    · simp [remove_alert, h, hr, assocSet_lookup,
            List.eraseIdx_eq_take_drop_succ]

/-- Witness for C8: index 5 is out of range for a two-alert list, so the
call fails without changing the store. -/
theorem remove_alert_spec_witness :
    remove_alert storeC8 7 5 = (storeC8, false) :=
  (remove_alert_spec storeC8 7 5).2.1 [alertA, alertB] (by decide) (by decide)

/-- C9: the RSI classification is a pure step function of the RSI value:
strictly below 30 OVERSOLD, from 30 to 70 inclusive NEUTRAL, strictly
above 70 OVERBOUGHT, with both boundary values classifying NEUTRAL. -/
theorem rsi_step_function (rsi : ℚ) :
    (rsi < 30 → rsi_signal_of rsi = ("OVERSOLD")) ∧
    (30 ≤ rsi → rsi ≤ 70 → rsi_signal_of rsi = ("NEUTRAL")) ∧
    (70 < rsi → rsi_signal_of rsi = ("OVERBOUGHT")) ∧
    rsi_signal_of 30 = ("NEUTRAL") ∧
    rsi_signal_of 70 = ("NEUTRAL") := by
  refine ⟨?_, ?_, ?_, by decide, by decide⟩
  · intro h
    have h1 : ¬(30 ≤ rsi ∧ rsi ≤ 70) := fun hc => absurd h (not_lt.mpr hc.1)
    have h2 : ¬(70 < rsi) := by linarith
    rw [rsi_signal_of, if_neg h1, if_neg h2]
  · intro ha hb
    rw [rsi_signal_of, if_pos ⟨ha, hb⟩]
  · intro h
    have h1 : ¬(30 ≤ rsi ∧ rsi ≤ 70) := fun hc => absurd h (not_lt.mpr hc.2)
    rw [rsi_signal_of, if_neg h1, if_pos h]

/-- Witness for C9 at RSI 20, which classifies OVERSOLD. -/
theorem rsi_step_function_witness : rsi_signal_of 20 = ("OVERSOLD") :=
  (rsi_step_function 20).1 (by decide)

/-- C10: an alert record with no active field is treated as active — the
firing test reduces to the price condition, and a fired record gets its
active field set to false in the pass — while a record whose active field
is false is always skipped; any record whose active field differs from
false fires exactly when the price condition holds. -/
theorem missing_active_field_fires (current_price : ℚ) (symbol : String)
    (a : Alert) :
    (a.active = none →
       fireAlert current_price symbol a = alertCond current_price symbol a) ∧
    (a.active = some false → fireAlert current_price symbol a = false) ∧
    (a.active ≠ some false →
       fireAlert current_price symbol a = alertCond current_price symbol a) ∧
    (a.active = none → fireAlert current_price symbol a = true →
       (fireChat current_price symbol [a]).1 =
         [{ a with active := some false }]) := by
  refine ⟨?_, ?_, ?_, ?_⟩
  · intro h
    simp [fireAlert, h]
  · intro h
    simp [fireAlert, h]
  · intro h
    cases ha : a.active with
    | none => simp [fireAlert, ha]
    | some b =>
      cases b with
      | false => exact absurd ha h
      | true => simp [fireAlert, ha]
  · intro _ hf
    simp [fireChat, hf]

/-- Witness for C10: a record lacking the active field fires and comes out
of the pass with active set to false. -/
theorem missing_active_field_fires_witness :
    (fireChat 2 ("EUR/USD") [noActiveAlert]).1 =
      [{ noActiveAlert with active := some false }] :=
  (missing_active_field_fires 2 ("EUR/USD") noActiveAlert).2.2.2 rfl (by decide)

end ForexBot
